import Mathlib

/-!
Verification of the moderation state engine of the Fsociety Telegram bot
(`src/bot.py`).  The Python module keeps a per-chat configuration dictionary
(`ensure_chat`), enforces word filters and anti-spam rules on incoming group
messages (`apply_filters_and_antispam`), escalates violations into warnings
and bans (`warn` and the filter-match path), and persists the whole store as
a JSON document (`save_data` / `load_data`).

The embedding below translates those functions into Lean.  Python strings are
modelled as `List Char` (ASCII fragment: `str.lower`, `str.isdigit`,
`str.strip` and `int()` are modelled on the ASCII alphabet, which covers every
string the claims mention).  Python's unbounded `int` is `Int`; the float
timestamps used by the flood window are modelled as `Int` (the code only
subtracts and compares them).  Python dicts are insertion-ordered association
lists, mirroring the guaranteed dict ordering the loops in the source rely on.
-/

/-- Python strings, as lists of characters. -/
abbrev Str := List Char

/-- Coerce a Lean string literal to the `Str` model. -/
def strL (s : String) : Str := s.data

/-- Model of `str.lower` on one ASCII character (`'A'..'Z'` map to
`'a'..'z'`, everything else is fixed). -/
def lowerChar (c : Char) : Char :=
  if 65 ≤ c.toNat ∧ c.toNat ≤ 90 then Char.ofNat (c.toNat + 32) else c

/-- Model of `str.lower` (bot.py line 632: `(message.text or ...).lower()`). -/
def lowerStr (s : Str) : Str := s.map lowerChar

/-- ASCII decimal digit test, one character of `str.isdigit`. -/
def isDigitChar (c : Char) : Bool := decide (48 ≤ c.toNat ∧ c.toNat ≤ 57)

/-- Model of `str.isdigit`: nonempty and all characters decimal digits
(ASCII fragment). -/
def pyIsDigit (s : Str) : Bool := !s.isEmpty && s.all isDigitChar

/-- Numeric value of a digit string, as read by Python `int()`. -/
def digitsVal (s : Str) : Nat := s.foldl (fun a c => a * 10 + (c.toNat - 48)) 0

/-- ASCII whitespace, as stripped by `str.strip`. -/
def isSpaceChar (c : Char) : Bool :=
  decide (c.toNat = 32 ∨ c.toNat = 9 ∨ c.toNat = 10 ∨ c.toNat = 13 ∨
          c.toNat = 11 ∨ c.toNat = 12)

/-- Model of `str.strip()` (no arguments): drop leading and trailing
whitespace. -/
def pyStrip (s : Str) : Str :=
  ((s.dropWhile isSpaceChar).reverse.dropWhile isSpaceChar).reverse

/-- Model of Python `int(s)` on an ASCII string: optional surrounding
whitespace, optional sign, then decimal digits; `none` models the
`ValueError` raised otherwise. -/
def pyInt (s : Str) : Option Int :=
  let t := pyStrip s
  match t with
  | '-' :: r => if pyIsDigit r then some (-(digitsVal r : Int)) else none
  | '+' :: r => if pyIsDigit r then some ((digitsVal r : Int)) else none
  | _ => if pyIsDigit t then some ((digitsVal t : Int)) else none

/-- Python's substring operator `needle in hay` on strings. -/
def subIn (needle : Str) : Str → Bool
  | [] => needle.isEmpty
  | c :: t => needle.isPrefixOf (c :: t) || subIn needle t

/-- Insertion-ordered dictionary lookup (`d.get(k)` / `k in d`). -/
def dictGet {α : Type} : List (Str × α) → Str → Option α
  | [], _ => none
  | (k', v) :: r, k => if k' = k then some v else dictGet r k

/-- Insertion-ordered dictionary write `d[k] = v`: an existing key keeps its
position, a new key is appended at the end. -/
def dictSet {α : Type} : List (Str × α) → Str → α → List (Str × α)
  | [], k, v => [(k, v)]
  | (k', v') :: r, k, v =>
      if k' = k then (k', v) :: r else (k', v') :: dictSet r k v

/-- Dictionary deletion `del d[k]` (dicts hold each key at most once). -/
def dictRemove {α : Type} : List (Str × α) → Str → List (Str × α)
  | [], _ => []
  | (k', v) :: r, k => if k' = k then r else (k', v) :: dictRemove r k

/-- One per-user flood window: bot.py stores
`{"count": int, "ts": float}` in `conf["flood"]`. -/
structure FloodWindow where
  count : Int
  ts : Int
deriving DecidableEq

/-- Per-filter configuration: bot.py stores `{"warn": bool}` in
`conf["filters"]`. -/
structure FilterCfg where
  warn : Bool
deriving DecidableEq

/-- One chat's configuration, the dict created by `ensure_chat`
(bot.py lines 130-144). -/
structure ChatConfig where
  maxWarns : Int
  welcomeOn : Bool
  welcomeText : Str
  antispamOn : Bool
  filters : List (Str × FilterCfg)
  warns : List (Str × Int)
  flood : List (Str × FloodWindow)
  slowmode : Int
deriving DecidableEq

/-- The chat configuration `ensure_chat` creates for an unseen chat
(bot.py lines 134-143, with `DEFAULT_MAX_WARNS = 3`). -/
def ensureChatDefault : ChatConfig :=
  { maxWarns := 3
    welcomeOn := true
    welcomeText := strL ("Welcome, {mention}!")
    antispamOn := true
    filters := []
    warns := []
    flood := []
    slowmode := 0 }

/-- Warn-count read `int(conf["warns"].get(uid, 0))`. -/
def warnsGet (w : List (Str × Int)) (uid : Str) : Int := (dictGet w uid).getD 0

/-- Escalation verdicts of the warn arithmetic (`Warned(count,max)` /
`Banned(count,max)` in the spec's terms). -/
inductive EscalationVerdict where
  | warned (count maxW : Int)
  | banned (count maxW : Int)
deriving DecidableEq

/-- The shared escalation arithmetic of bot.py: `cur = warns.get(uid,0)+1;
warns[uid] = cur; cur >= max_warns` decides ban versus warn.  It appears
verbatim both in the `warn` command (lines 380-390) and in the filter-match
path of `apply_filters_and_antispam` (lines 642-660). -/
def recordViolation (conf : ChatConfig) (uid : Str) : ChatConfig × EscalationVerdict :=
  let cur := warnsGet conf.warns uid + 1
  let conf' := { conf with warns := dictSet conf.warns uid cur }
  if cur ≥ conf.maxWarns then (conf', .banned cur conf.maxWarns)
  else (conf', .warned cur conf.maxWarns)

/-- Flood-window update of bot.py lines 673-679: `setdefault` the window
(fresh windows start at `count = 0, ts = now`), reset it when
`now - ts > 7`, then increment the counter. -/
def floodBump (st : Option FloodWindow) (now : Int) : FloodWindow :=
  let u := st.getD ⟨0, now⟩
  let u := if now - u.ts > 7 then (⟨0, now⟩ : FloodWindow) else u
  ⟨u.count + 1, u.ts⟩

/-- Full flood check of bot.py lines 673-694: bump the window, and when the
post-increment count reaches 5 report a flag and reset the window to
`count = 0, ts = now`. -/
def floodCheck (st : Option FloodWindow) (now : Int) : FloodWindow × Bool :=
  let u := floodBump st now
  if u.count ≥ 5 then ((⟨0, now⟩ : FloodWindow), true) else (u, false)

/-- First-match filter scan: the loop `for word, cfg in conf["filters"].items():
if word in text:` of bot.py lines 635-636, in dict insertion order. -/
def findFilterMatch : List (Str × FilterCfg) → Str → Option (Str × FilterCfg)
  | [], _ => none
  | (w, cfg) :: r, text =>
      if subIn w text then some (w, cfg) else findFilterMatch r text

/-- Filter engine: case-fold the message text and scan the chat's filters
for the first substring match. -/
def filterMatch (conf : ChatConfig) (raw : Str) : Option (Str × FilterCfg) :=
  findFilterMatch conf.filters (lowerStr raw)

/-- The link pattern `LINK_RE = https?://|t\.me/|telegram\.me/` of bot.py
line 621, searched in the lowered text. -/
def hasLink (t : Str) : Bool :=
  subIn (strL ("http://")) t || subIn (strL ("https://")) t ||
  subIn (strL ("t.me/")) t || subIn (strL ("telegram.me/")) t

/-- Store events: a mutation of the persisted data, or a `save_data()` call. -/
inductive Evt where
  | mut
  | save
deriving DecidableEq, BEq

/-- A trace is durably finalized when every mutation is followed by a later
save: no `.mut` may occur after the last `.save`. -/
def persistedOk : List Evt → Bool
  | [] => true
  | Evt.save :: r => persistedOk r
  | Evt.mut :: r => r.contains Evt.save && persistedOk r

/-- Outbound actions the moderation handlers prescribe. -/
inductive ModAction where
  | deleteMsg
  | banUser
  | warnReply (count maxW : Int)
  | floodMute
  | restrict (until_ : Option Int)
  | banA (until_ : Option Int)
deriving DecidableEq

/-- Replies of an admin command: a rejected command with its human-readable
usage text, a normal acknowledgement, or an uncaught Python exception. -/
inductive CmdReply where
  | rejected (msg : Str)
  | ok
  | errored
deriving DecidableEq

/-- Tests whether a reply is a rejected-command result. -/
def isRejected : CmdReply → Bool
  | CmdReply.rejected _ => true
  | _ => false

/-- The group message pipeline `apply_filters_and_antispam` of bot.py lines
624-694, for one text message: stats touch plus save, then the filter loop
(delete, and on a warn-filter the escalation arithmetic of `recordViolation`
followed by `save_data`), then the anti-spam link check, then the flood
detector (whose counter mutation is only followed by `save_data` inside the
flagged branch, lines 680-694).  Returns the updated chat configuration, the
prescribed platform actions, and the store-event trace in source order. -/
def applyFiltersAntispam (conf : ChatConfig) (raw : Str) (uid : Str) (now : Int) :
    ChatConfig × List ModAction × List Evt :=
  let tr0 : List Evt := [Evt.mut, Evt.save]
  let text := lowerStr raw
  match findFilterMatch conf.filters text with
  | some (_, cfg) =>
      if cfg.warn then
        let r := recordViolation conf uid
        match r.2 with
        | EscalationVerdict.banned _ _ =>
            (r.1, [ModAction.deleteMsg, ModAction.banUser], tr0 ++ [Evt.mut, Evt.save])
        | EscalationVerdict.warned c mx =>
            (r.1, [ModAction.deleteMsg, ModAction.warnReply c mx], tr0 ++ [Evt.mut, Evt.save])
      else (conf, [ModAction.deleteMsg], tr0)
  | none =>
      if conf.antispamOn then
        if hasLink text then (conf, [ModAction.deleteMsg], tr0)
        else
          let fc := floodCheck (dictGet conf.flood uid) now
          let conf2 := { conf with flood := dictSet conf.flood uid fc.1 }
          if fc.2 then (conf2, [ModAction.floodMute], tr0 ++ [Evt.mut, Evt.mut, Evt.save])
          else (conf2, [], tr0 ++ [Evt.mut])
      else (conf, [], tr0)

/-- The `/warn` admin command (bot.py lines 370-391): run the escalation
arithmetic and save; the verdict decides the ban-or-warn reply. -/
def warnCmd (conf : ChatConfig) (uid : Str) :
    ChatConfig × EscalationVerdict × List Evt :=
  let s := recordViolation conf uid
  (s.1, s.2, [Evt.mut, Evt.save])

def usageSetMaxWarns : Str := strL ("Usage: /setmaxwarns N")
def usageSlowmode : Str := strL ("Usage: /slowmode <seconds|off>")
def usageAddFilter : Str := strL ("Usage: /addfilter <word> [warn]")
def usageRmFilter : Str := strL ("Usage: /rmfilter <word>")
def usageSetWelcome : Str := strL ("Usage: /setwelcome Your message with {mention}")

/-- `/setmaxwarns` (bot.py lines 441-451): reject unless the first argument
passes `str.isdigit`, otherwise store its integer value. -/
def setmaxwarnsCmd (conf : ChatConfig) (args : List Str) :
    ChatConfig × CmdReply × List Evt :=
  match args with
  | [] => (conf, CmdReply.rejected usageSetMaxWarns, [])
  | a :: _ =>
      if pyIsDigit a then
        ({ conf with maxWarns := (digitsVal a : Int) }, CmdReply.ok, [Evt.mut, Evt.save])
      else (conf, CmdReply.rejected usageSetMaxWarns, [])

def offStr : Str := strL ("off")
def onStr : Str := strL ("on")
def warnStr : Str := strL ("warn")

/-- `/slowmode` (bot.py lines 512-528): no argument is rejected with a usage
message; `"off"` stores 0; anything else goes through `int(arg)`, whose
`ValueError` on a non-numeric argument is not caught (`CmdReply.errored`). -/
def slowmodeCmd (conf : ChatConfig) (args : List Str) :
    ChatConfig × CmdReply × List Evt :=
  match args with
  | [] => (conf, CmdReply.rejected usageSlowmode, [])
  | a :: _ =>
      let arg := lowerStr a
      match (if arg = offStr then some (0 : Int) else pyInt arg) with
      | some secs => ({ conf with slowmode := secs }, CmdReply.ok, [Evt.mut, Evt.save])
      | none => (conf, CmdReply.errored, [])

/-- `/addfilter` (bot.py lines 454-466): lower-case the word, read the
optional `warn` flag, store the filter entry, save. -/
def addfilterCmd (conf : ChatConfig) (args : List Str) :
    ChatConfig × CmdReply × List Evt :=
  match args with
  | [] => (conf, CmdReply.rejected usageAddFilter, [])
  | a :: rest =>
      let word := lowerStr a
      let wflag := match rest with
        | b :: _ => lowerStr b == warnStr
        | [] => false
      ({ conf with filters := dictSet conf.filters word ⟨wflag⟩ },
        CmdReply.ok, [Evt.mut, Evt.save])

/-- `/rmfilter` (bot.py lines 469-483): delete the filter and save when it
exists, otherwise reply without touching the store. -/
def rmfilterCmd (conf : ChatConfig) (args : List Str) :
    ChatConfig × CmdReply × List Evt :=
  match args with
  | [] => (conf, CmdReply.rejected usageRmFilter, [])
  | a :: _ =>
      let word := lowerStr a
      if (dictGet conf.filters word).isSome then
        ({ conf with filters := dictRemove conf.filters word },
          CmdReply.ok, [Evt.mut, Evt.save])
      else (conf, CmdReply.ok, [])

/-- `/antispam` (bot.py lines 497-509): an argument other than `on`/`off`
only reports the current state; otherwise the flag is stored and saved. -/
def antispamCmd (conf : ChatConfig) (args : List Str) :
    ChatConfig × CmdReply × List Evt :=
  match args with
  | [] => (conf, CmdReply.ok, [])
  | a :: _ =>
      let w := lowerStr a
      if w = onStr ∨ w = offStr then
        ({ conf with antispamOn := w == onStr }, CmdReply.ok, [Evt.mut, Evt.save])
      else (conf, CmdReply.ok, [])

/-- `/setwelcome` (bot.py lines 596-607). -/
def setwelcomeCmd (conf : ChatConfig) (args : List Str) :
    ChatConfig × CmdReply × List Evt :=
  let text := List.intercalate [' '] args
  if text = [] then (conf, CmdReply.rejected usageSetWelcome, [])
  else ({ conf with welcomeText := text }, CmdReply.ok, [Evt.mut, Evt.save])

/-- `/togglewelcome` (bot.py lines 610-617). -/
def togglewelcomeCmd (conf : ChatConfig) :
    ChatConfig × CmdReply × List Evt :=
  ({ conf with welcomeOn := !conf.welcomeOn }, CmdReply.ok, [Evt.mut, Evt.save])

/-- `/resetwarns` (bot.py lines 415-438): set the target's count to 0 and
save. -/
def resetwarnsCmd (conf : ChatConfig) (uid : Str) :
    ChatConfig × CmdReply × List Evt :=
  ({ conf with warns := dictSet conf.warns uid 0 }, CmdReply.ok, [Evt.mut, Evt.save])

/-- Model of `parse_duration` (bot.py lines 168-177): empty input is `None`;
otherwise the *stripped* string must fully match `(\d+)([smhd])` with the
unit case-insensitive, and the value is digits times the unit multiplier. -/
def unitMult (c : Char) : Option Int :=
  if lowerChar c = 's' then some 1
  else if lowerChar c = 'm' then some 60
  else if lowerChar c = 'h' then some 3600
  else if lowerChar c = 'd' then some 86400
  else none

def parseDuration (s : Str) : Option Int :=
  if s = [] then none
  else
    match (pyStrip s).reverse with
    | u :: rev =>
        let ds := rev.reverse
        if pyIsDigit ds then
          match unitMult u with
          | some mult => some ((digitsVal ds : Int) * mult)
          | none => none
        else none
    | [] => none

/-- Modelled from the claim's words, for comparison with `parseDuration`:
"the string is digits followed by one of the units s, m, h, d
(case-insensitive, multipliers 1/60/3600/86400)" — with no whitespace
stripping. -/
def claimDurationShape (s : Str) : Option Int :=
  match s.reverse with
  | u :: rev =>
      let ds := rev.reverse
      if pyIsDigit ds then
        match unitMult u with
        | some mult => some ((digitsVal ds : Int) * mult)
        | none => none
      else none
  | [] => none

/-- The `until_date` computation shared by `/mute` (bot.py lines 300-301) and
`/ban` (lines 335-343): parse the first argument, and only a parsed, nonzero
duration produces an expiry (`X if duration else None` is falsy for both
`None` and `0`). -/
def untilFromArgs (args : List Str) (now : Int) : Option Int :=
  let duration := match args with
    | [] => none
    | a :: _ => parseDuration a
  match duration with
  | some d => if d = 0 then none else some (now + d)
  | none => none

/-- `/mute` with a reply target (bot.py lines 294-307): always restricts,
with the optional expiry from `untilFromArgs`. -/
def muteCmd (args : List Str) (now : Int) : List ModAction :=
  [ModAction.restrict (untilFromArgs args now)]

/-- `/ban` with a reply target (bot.py lines 329-346): always bans, with the
optional expiry from `untilFromArgs`. -/
def banCmd (args : List Str) (now : Int) : List ModAction :=
  [ModAction.banA (untilFromArgs args now)]

/-- JSON values as produced and consumed by `json.dump` / `json.load`
(the store uses only numbers, booleans, strings and objects). -/
inductive J where
  | jnum (n : Int)
  | jbool (b : Bool)
  | jstr (s : Str)
  | jobj (fields : List (Str × J))

/-- The whole persisted document of bot.py lines 91-103: top-level `chats`,
`users`, `groups` maps, all keyed by stringified ids. -/
structure Store where
  chats : List (Str × ChatConfig)
  users : List (Str × Bool)
  groups : List (Str × Bool)
deriving DecidableEq

def kCount : Str := strL ("count")
def kTs : Str := strL ("ts")
def kWarn : Str := strL ("warn")
def kMaxWarns : Str := strL ("max_warns")
def kWelcomeOn : Str := strL ("welcome_on")
def kWelcomeText : Str := strL ("welcome_text")
def kAntispamOn : Str := strL ("antispam_on")
def kFilters : Str := strL ("filters")
def kWarns : Str := strL ("warns")
def kFlood : Str := strL ("flood")
def kSlowmode : Str := strL ("slowmode")
def kChats : Str := strL ("chats")
def kUsers : Str := strL ("users")
def kGroups : Str := strL ("groups")

/-- JSON form of one flood window. -/
def encodeWindow (w : FloodWindow) : J :=
  J.jobj [(kCount, J.jnum w.count), (kTs, J.jnum w.ts)]

/-- JSON form of one filter entry. -/
def encodeFilterCfg (f : FilterCfg) : J := J.jobj [(kWarn, J.jbool f.warn)]

/-- JSON object for a string-keyed map, one encoded value per entry, in
insertion order. -/
def encodeMapWith {α : Type} (enc : α → J) (m : List (Str × α)) : List (Str × J) :=
  m.map (fun p => (p.1, enc p.2))

/-- JSON form of one chat configuration, with the field names and nesting of
the `ensure_chat` dict. -/
def encodeConf (c : ChatConfig) : J :=
  J.jobj [ (kMaxWarns, J.jnum c.maxWarns)
         , (kWelcomeOn, J.jbool c.welcomeOn)
         , (kWelcomeText, J.jstr c.welcomeText)
         , (kAntispamOn, J.jbool c.antispamOn)
         , (kFilters, J.jobj (encodeMapWith encodeFilterCfg c.filters))
         , (kWarns, J.jobj (encodeMapWith J.jnum c.warns))
         , (kFlood, J.jobj (encodeMapWith encodeWindow c.flood))
         , (kSlowmode, J.jnum c.slowmode) ]

/-- The document `save_data` writes (bot.py lines 122-127): `json.dump` of
the in-memory store. -/
def encodeStore (s : Store) : J :=
  J.jobj [ (kChats, J.jobj (encodeMapWith encodeConf s.chats))
         , (kUsers, J.jobj (encodeMapWith J.jbool s.users))
         , (kGroups, J.jobj (encodeMapWith J.jbool s.groups)) ]

def jAsInt : J → Option Int
  | J.jnum n => some n
  | _ => none

def jAsBool : J → Option Bool
  | J.jbool b => some b
  | _ => none

/-- Read back a string-keyed map, decoding every value. -/
def decodeMapWith {α : Type} (dec : J → Option α) :
    List (Str × J) → Option (List (Str × α))
  | [] => some []
  | (k, v) :: r =>
      match dec v with
      | some a => (decodeMapWith dec r).map (fun rest => (k, a) :: rest)
      | none => none

/-- Reader for the persisted flood-window layout. -/
def decodeWindow : J → Option FloodWindow
  | J.jobj [(k1, J.jnum c), (k2, J.jnum t)] =>
      if k1 = kCount ∧ k2 = kTs then some ⟨c, t⟩ else none
  | _ => none

/-- Reader for the persisted filter-entry layout. -/
def decodeFilterCfg : J → Option FilterCfg
  | J.jobj [(k1, J.jbool b)] => if k1 = kWarn then some ⟨b⟩ else none
  | _ => none

/-- Reader for the persisted chat-configuration layout documented in
bot.py lines 91-103. -/
def decodeConf : J → Option ChatConfig
  | J.jobj [(k1, J.jnum mw), (k2, J.jbool won), (k3, J.jstr wt),
            (k4, J.jbool aon), (k5, J.jobj fj), (k6, J.jobj wj),
            (k7, J.jobj flj), (k8, J.jnum sm)] =>
      if k1 = kMaxWarns ∧ k2 = kWelcomeOn ∧ k3 = kWelcomeText ∧
         k4 = kAntispamOn ∧ k5 = kFilters ∧ k6 = kWarns ∧
         k7 = kFlood ∧ k8 = kSlowmode then
        match decodeMapWith decodeFilterCfg fj,
              decodeMapWith jAsInt wj,
              decodeMapWith decodeWindow flj with
        | some fs, some ws, some fl => some ⟨mw, won, wt, aon, fs, ws, fl, sm⟩
        | _, _, _ => none
      else none
  | _ => none

/-- Reader for the persisted top-level store layout. -/
def decodeStore : J → Option Store
  | J.jobj [(k1, J.jobj cj), (k2, J.jobj uj), (k3, J.jobj gj)] =>
      if k1 = kChats ∧ k2 = kUsers ∧ k3 = kGroups then
        match decodeMapWith decodeConf cj,
              decodeMapWith jAsBool uj,
              decodeMapWith jAsBool gj with
        | some cs, some us, some gs => some ⟨cs, us, gs⟩
        | _, _, _ => none
      else none
  | _ => none

/-- What the file handed to `load_data` produced: no file at all
(`FileNotFoundError`), a read or parse failure (`json.load` raised), or a
parsed JSON document. -/
inductive LoadResult where
  | missing
  | failed
  | parsed (j : J)

/-- The empty store `{"chats": {}, "users": {}, "groups": {}}`. -/
def emptyDoc : J :=
  J.jobj [(kChats, J.jobj []), (kUsers, J.jobj []), (kGroups, J.jobj [])]

/-- `dict.setdefault(k, {})`: keep an existing key, append an empty object
for a missing one. -/
def setdefaultKey (fs : List (Str × J)) (k : Str) : List (Str × J) :=
  match dictGet fs k with
  | some _ => fs
  | none => fs ++ [(k, J.jobj [])]

/-- `load_data` (bot.py lines 106-119): a missing file and any exception
(unreadable file, unparseable JSON, or a parsed document that is not an
object, which makes the `setdefault` calls raise inside the same `try`)
leave the empty store; a parsed object gets the three top-level keys
`setdefault`ed. -/
def loadData : LoadResult → J
  | LoadResult.missing => emptyDoc
  | LoadResult.failed => emptyDoc
  | LoadResult.parsed j =>
      match j with
      | J.jobj fs =>
          J.jobj (setdefaultKey (setdefaultKey (setdefaultKey fs kChats) kUsers) kGroups)
      | _ => emptyDoc

/-- The commands (and the group-message pipeline) through which a chat's
configuration is reachable; each constructor carries the parsed arguments
its handler receives. -/
inductive Cmd where
  | setMaxWarnsC (args : List Str)
  | addFilterC (args : List Str)
  | rmFilterC (args : List Str)
  | antispamC (args : List Str)
  | slowmodeC (args : List Str)
  | setWelcomeC (args : List Str)
  | toggleWelcomeC
  | warnC (uid : Str)
  | resetWarnsC (uid : Str)
  | msgC (raw : Str) (uid : Str) (now : Int)

/-- One public operation applied to a chat configuration. -/
def stepCmd (conf : ChatConfig) : Cmd → ChatConfig
  | Cmd.setMaxWarnsC a => (setmaxwarnsCmd conf a).1
  | Cmd.addFilterC a => (addfilterCmd conf a).1
  | Cmd.rmFilterC a => (rmfilterCmd conf a).1
  | Cmd.antispamC a => (antispamCmd conf a).1
  | Cmd.slowmodeC a => (slowmodeCmd conf a).1
  | Cmd.setWelcomeC a => (setwelcomeCmd conf a).1
  | Cmd.toggleWelcomeC => (togglewelcomeCmd conf).1
  | Cmd.warnC u => (warnCmd conf u).1
  | Cmd.resetWarnsC u => (resetwarnsCmd conf u).1
  | Cmd.msgC t u n => (applyFiltersAntispam conf t u n).1

/-- Serialized interleaving of violation recordings against one chat.  The
asyncio dispatcher runs handlers on a single event loop and the
read-increment-write in `warn` (bot.py lines 381-382) and in the filter path
(lines 644-645) contains no `await`, so concurrent recordings can only
interleave as some sequential order of whole recordings. -/
def runViolations : ChatConfig → List Str → ChatConfig × List EscalationVerdict
  | conf, [] => (conf, [])
  | conf, u :: r =>
      let s := recordViolation conf u
      let rest := runViolations s.1 r
      (rest.1, s.2 :: rest.2)

/-- Is this verdict a ban? -/
def isBannedV : EscalationVerdict → Bool
  | EscalationVerdict.banned _ _ => true
  | _ => false

/-- Some verdict in the list is a ban. -/
def anyBanned (vs : List EscalationVerdict) : Bool := vs.any isBannedV

section Helpers

theorem dictGet_set_self {α : Type} (m : List (Str × α)) (k : Str) (v : α) :
    dictGet (dictSet m k v) k = some v := by
  induction m with
  | nil => simp [dictSet, dictGet]
  | cons h t ih =>
      obtain ⟨k', v'⟩ := h
      by_cases hk : k' = k <;> simp [dictSet, dictGet, hk, ih]

theorem dictGet_set_ne {α : Type} (m : List (Str × α)) (k u : Str) (v : α)
    (h : k ≠ u) : dictGet (dictSet m k v) u = dictGet m u := by
  induction m with
  | nil => simp [dictSet, dictGet, h]
  | cons hd t ih =>
      obtain ⟨k', v'⟩ := hd
      by_cases hk : k' = k
      · subst hk
        simp [dictSet, dictGet, h]
      · simp [dictSet, dictGet, hk, ih]

theorem recordViolation_fst (conf : ChatConfig) (uid : Str) :
    (recordViolation conf uid).1 =
      { conf with warns := dictSet conf.warns uid (warnsGet conf.warns uid + 1) } := by
  simp only [recordViolation]
  split <;> rfl

theorem recordViolation_maxWarns (conf : ChatConfig) (uid : Str) :
    (recordViolation conf uid).1.maxWarns = conf.maxWarns := by
  rw [recordViolation_fst]

theorem recordViolation_warnsGet (conf : ChatConfig) (uid : Str) :
    warnsGet (recordViolation conf uid).1.warns uid = warnsGet conf.warns uid + 1 := by
  rw [recordViolation_fst]
  unfold warnsGet
  rw [dictGet_set_self]
  rfl

end Helpers

/-- C1: Flood Detector on a sequence of qualifying messages from one user:
with no prior window, or when `now - windowStart > 7`, the counter resets and
the message counts as 1; otherwise it increments by 1.  Starting fresh, four
qualifying messages inside one window (each within 7 time-units of the
window start) are never flagged; the fifth inside the same window is flagged
exactly once and resets the window to `count = 0, windowStart = now`, so the
next message (flagged or not, in or out of the window) starts a fresh count
of 1. -/
theorem flood_detector_edge_triggered
    (w : FloodWindow) (m t1 t2 t3 t4 t5 t6 : Int)
    (h2 : t2 - t1 ≤ 7) (h3 : t3 - t1 ≤ 7) (h4 : t4 - t1 ≤ 7) (h5 : t5 - t1 ≤ 7) :
    floodBump none m = ⟨1, m⟩
    ∧ floodBump (some w) m =
        (if m - w.ts > 7 then (⟨1, m⟩ : FloodWindow) else ⟨w.count + 1, w.ts⟩)
    ∧ floodCheck none t1 = (⟨1, t1⟩, false)
    ∧ floodCheck (some ⟨1, t1⟩) t2 = (⟨2, t1⟩, false)
    ∧ floodCheck (some ⟨2, t1⟩) t3 = (⟨3, t1⟩, false)
    ∧ floodCheck (some ⟨3, t1⟩) t4 = (⟨4, t1⟩, false)
    ∧ floodCheck (some ⟨4, t1⟩) t5 = (⟨0, t5⟩, true)
    ∧ (floodCheck (some ⟨0, t5⟩) t6).1.count = 1
    ∧ (floodCheck (some ⟨0, t5⟩) t6).2 = false := by
  refine ⟨?_, ?_, ?_, ?_, ?_, ?_, ?_, ?_, ?_⟩
  · simp [floodBump]
  · simp only [floodBump, Option.getD_some]
    split <;> rename_i h <;> simp_all
  · simp [floodCheck, floodBump]
  · simp only [floodCheck, floodBump, Option.getD_some]
    rw [if_neg (show ¬ t2 - t1 > 7 by omega)]
    norm_num
  · simp only [floodCheck, floodBump, Option.getD_some]
    rw [if_neg (show ¬ t3 - t1 > 7 by omega)]
    norm_num
  · simp only [floodCheck, floodBump, Option.getD_some]
    rw [if_neg (show ¬ t4 - t1 > 7 by omega)]
    norm_num
  · simp only [floodCheck, floodBump, Option.getD_some]
    rw [if_neg (show ¬ t5 - t1 > 7 by omega)]
    norm_num
  · simp only [floodCheck, floodBump, Option.getD_some]
    split <;> norm_num
  · simp only [floodCheck, floodBump, Option.getD_some]
    split <;> norm_num

/-- Witness for C1: a concrete burst at times 0,1,2,3,4 inside the 7-unit
window, whose fifth message is flagged and resets the window. -/
theorem flood_detector_edge_triggered_witness :
    ((1 : Int) - 0 ≤ 7 ∧ (2 : Int) - 0 ≤ 7 ∧ (3 : Int) - 0 ≤ 7 ∧ (4 : Int) - 0 ≤ 7)
    ∧ floodCheck (some ⟨4, 0⟩) 4 = (⟨0, 4⟩, true) :=
  ⟨by decide,
    (flood_detector_edge_triggered ⟨0, 0⟩ 0 0 1 2 3 4 5
      (by decide) (by decide) (by decide) (by decide)).2.2.2.2.2.2.1⟩

/-- C2: the escalation arithmetic shared by the filter-match path and the
manual `/warn` path increments the target's warn count by exactly 1; when the
new count reaches `maxWarns` the verdict is `banned`, below it the verdict is
`warned` with the new count and the configured maximum; neither outcome
resets the warn count or the threshold, and the `/warn` command applies
exactly this arithmetic. -/
theorem escalation_increment_threshold (conf : ChatConfig) (uid : Str) :
    warnsGet (recordViolation conf uid).1.warns uid = warnsGet conf.warns uid + 1
    ∧ (recordViolation conf uid).1.maxWarns = conf.maxWarns
    ∧ (recordViolation conf uid).2 =
        (if warnsGet conf.warns uid + 1 ≥ conf.maxWarns
         then EscalationVerdict.banned (warnsGet conf.warns uid + 1) conf.maxWarns
         else EscalationVerdict.warned (warnsGet conf.warns uid + 1) conf.maxWarns)
    ∧ (warnCmd conf uid).1 = (recordViolation conf uid).1
    ∧ (warnCmd conf uid).2.1 = (recordViolation conf uid).2 := by
  refine ⟨recordViolation_warnsGet conf uid, recordViolation_maxWarns conf uid, ?_, rfl, rfl⟩
  simp only [recordViolation]
  split <;> rename_i h <;> simp [h]

section MaxWarnsPreservation

theorem addfilterCmd_maxWarns (conf : ChatConfig) (args : List Str) :
    (addfilterCmd conf args).1.maxWarns = conf.maxWarns := by
  cases args with
  | nil => rfl
  | cons a r => rfl

theorem rmfilterCmd_maxWarns (conf : ChatConfig) (args : List Str) :
    (rmfilterCmd conf args).1.maxWarns = conf.maxWarns := by
  cases args with
  | nil => rfl
  | cons a r =>
      simp only [rmfilterCmd]
      split <;> rfl

theorem antispamCmd_maxWarns (conf : ChatConfig) (args : List Str) :
    (antispamCmd conf args).1.maxWarns = conf.maxWarns := by
  cases args with
  | nil => rfl
  | cons a r =>
      simp only [antispamCmd]
      split <;> rfl

theorem slowmodeCmd_maxWarns (conf : ChatConfig) (args : List Str) :
    (slowmodeCmd conf args).1.maxWarns = conf.maxWarns := by
  cases args with
  | nil => rfl
  | cons a r =>
      simp only [slowmodeCmd]
      split <;> rfl

theorem setwelcomeCmd_maxWarns (conf : ChatConfig) (args : List Str) :
    (setwelcomeCmd conf args).1.maxWarns = conf.maxWarns := by
  simp only [setwelcomeCmd]
  split <;> rfl

theorem applyFA_maxWarns (conf : ChatConfig) (raw uid : Str) (now : Int) :
    (applyFiltersAntispam conf raw uid now).1.maxWarns = conf.maxWarns := by
  simp only [applyFiltersAntispam]
  repeat' split
  all_goals first
    | rfl
    | exact recordViolation_maxWarns conf uid

theorem stepCmd_maxWarns_nonneg (conf : ChatConfig) (c : Cmd)
    (h : 0 ≤ conf.maxWarns) : 0 ≤ (stepCmd conf c).maxWarns := by
  cases c with
  | setMaxWarnsC a =>
      cases a with
      | nil => exact h
      | cons x r =>
          simp only [stepCmd, setmaxwarnsCmd]
          split
          · exact Int.natCast_nonneg _
          · exact h
  | addFilterC a =>
      simp only [stepCmd]
      rw [addfilterCmd_maxWarns]
      exact h
  | rmFilterC a =>
      simp only [stepCmd]
      rw [rmfilterCmd_maxWarns]
      exact h
  | antispamC a =>
      simp only [stepCmd]
      rw [antispamCmd_maxWarns]
      exact h
  | slowmodeC a =>
      simp only [stepCmd]
      rw [slowmodeCmd_maxWarns]
      exact h
  | setWelcomeC a =>
      simp only [stepCmd]
      rw [setwelcomeCmd_maxWarns]
      exact h
  | toggleWelcomeC => exact h
  | warnC u =>
      simp only [stepCmd, warnCmd]
      rw [recordViolation_maxWarns]
      exact h
  | resetWarnsC u => exact h
  | msgC t u n =>
      simp only [stepCmd]
      rw [applyFA_maxWarns]
      exact h

end MaxWarnsPreservation

/-- C3 counterexample: `/setmaxwarns 0` passes the `isdigit` validation
(`"0".isdigit()` is true) and stores a threshold of 0, so a configuration
with `maxWarns < 1` is reachable from the defaults in one accepted command. -/
theorem maxwarns_invariant_cex :
    ¬ (1 ≤ (stepCmd ensureChatDefault (Cmd.setMaxWarnsC [strL ("0")])).maxWarns) := by
  decide

/-- C3 amended: for every chat configuration reachable through the public
operations (lazy creation with defaults, then any sequence of commands,
including `/setmaxwarns` with an argument accepted by its `isdigit`
validation), the invariant `maxWarns ≥ 0` holds; the stronger bound
`maxWarns ≥ 1` fails because the validation accepts the digit string "0". -/
theorem maxwarns_nonneg_reachable (cmds : List Cmd) :
    0 ≤ (cmds.foldl stepCmd ensureChatDefault).maxWarns := by
  have key : ∀ (cs : List Cmd) (conf : ChatConfig), 0 ≤ conf.maxWarns →
      0 ≤ (cs.foldl stepCmd conf).maxWarns := by
    intro cs
    induction cs with
    | nil => intro conf h; exact h
    | cons c r ih =>
        intro conf h
        exact ih _ (stepCmd_maxWarns_nonneg conf c h)
  exact key cmds ensureChatDefault (by decide)

theorem findFilterMatch_eq_find (fs : List (Str × FilterCfg)) (t : Str) :
    findFilterMatch fs t = fs.find? (fun e => subIn e.1 t) := by
  induction fs with
  | nil => rfl
  | cons e r ih =>
      obtain ⟨w, cfg⟩ := e
      by_cases h : subIn w t
      · simp [findFilterMatch, h, List.find?_cons_of_pos]
      · simp [findFilterMatch, h, List.find?_cons_of_neg, ih]

/-- C4: filter matching is a pure function of the chat's filter set and the
message text: the text is case-folded and each trigger is tested as a plain
substring, and the entry returned is the first match in the filter dict's
insertion order (it equals `List.find?` of the substring test over the
insertion-ordered entries); concretely, a filter "spam" matches the input
"this is SPAMMY". -/
theorem filter_match_first_in_order (conf : ChatConfig) (raw : Str) :
    filterMatch conf raw = conf.filters.find? (fun e => subIn e.1 (lowerStr raw))
    ∧ filterMatch { ensureChatDefault with filters := [(strL ("spam"), ⟨false⟩)] }
        (strL ("this is SPAMMY")) = some (strL ("spam"), ⟨false⟩) :=
  ⟨findFilterMatch_eq_find conf.filters (lowerStr raw), by decide⟩

/-- C5 counterexample: `/slowmode abc` is not surfaced as a rejected-command
result — `int("abc")` raises an uncaught `ValueError` — and `/mute` with the
malformed duration string "xyz" is applied (indefinitely) instead of being
rejected. -/
theorem invalid_arg_slowmode_cex :
    isRejected (slowmodeCmd ensureChatDefault [strL ("abc")]).2.1 = false
    ∧ (slowmodeCmd ensureChatDefault [strL ("abc")]).2.1 = CmdReply.errored
    ∧ muteCmd [strL ("xyz")] 5 = [ModAction.restrict none] := by
  decide

/-- C5 amended: a non-numeric `/setmaxwarns` threshold is rejected with a
human-readable usage message and no state mutation; but a non-numeric,
non-"off" `/slowmode` value raises an uncaught conversion error (no
rejected-command reply, and no mutation only because the exception aborts
the handler); and a malformed duration string is not rejected at all: `/mute`
and `/ban` are then applied with no expiry. -/
theorem invalid_arg_handling_amended (conf : ChatConfig) (s t d : Str) (now : Int)
    (hs : pyIsDigit s = false)
    (ht1 : lowerStr t ≠ offStr) (ht2 : pyInt (lowerStr t) = none)
    (hd : parseDuration d = none) :
    setmaxwarnsCmd conf [s] = (conf, CmdReply.rejected usageSetMaxWarns, [])
    ∧ slowmodeCmd conf [t] = (conf, CmdReply.errored, [])
    ∧ muteCmd [d] now = [ModAction.restrict none]
    ∧ banCmd [d] now = [ModAction.banA none] := by
  refine ⟨?_, ?_, ?_, ?_⟩
  · simp [setmaxwarnsCmd, hs]
  · simp [slowmodeCmd, ht1, ht2]
  · simp [muteCmd, untilFromArgs, hd]
  · simp [banCmd, untilFromArgs, hd]

/-- Witness for the amended C5, at the concrete invalid arguments "x"
(threshold), "abc" (slowmode) and "soon" (duration). -/
theorem invalid_arg_handling_witness :
    (pyIsDigit (strL ("x")) = false
     ∧ lowerStr (strL ("abc")) ≠ offStr
     ∧ pyInt (lowerStr (strL ("abc"))) = none
     ∧ parseDuration (strL ("soon")) = none)
    ∧ (setmaxwarnsCmd ensureChatDefault [strL ("x")] =
         (ensureChatDefault, CmdReply.rejected usageSetMaxWarns, [])
       ∧ slowmodeCmd ensureChatDefault [strL ("abc")] =
           (ensureChatDefault, CmdReply.errored, [])
       ∧ muteCmd [strL ("soon")] 0 = [ModAction.restrict none]
       ∧ banCmd [strL ("soon")] 0 = [ModAction.banA none]) :=
  ⟨⟨by decide, by decide, by decide, by decide⟩,
    invalid_arg_handling_amended ensureChatDefault (strL ("x")) (strL ("abc"))
      (strL ("soon")) 0 (by decide) (by decide) (by decide) (by decide)⟩

/-- C10 counterexample: the whitespace-padded string " 10m " is not of the
shape "digits followed by a unit", yet `parse_duration` strips it first and
parses it to 600 seconds. -/
theorem parse_duration_strip_cex :
    claimDurationShape (strL (" 10m ")) = none
    ∧ parseDuration (strL (" 10m ")) = some 600 := by
  decide

/-- C10 amended: a duration argument parses to seconds exactly when, after
stripping leading and trailing whitespace, it is digits followed by one of
the units s, m, h, d (case-insensitive, multipliers 1/60/3600/86400); any
other string parses to no duration, and `/mute` and `/ban` are then applied
with no expiry (indefinite) rather than being rejected. -/
theorem parse_duration_amended (s d : Str) (now : Int)
    (hd : parseDuration d = none) :
    parseDuration s = claimDurationShape (pyStrip s)
    ∧ muteCmd [d] now = [ModAction.restrict none]
    ∧ banCmd [d] now = [ModAction.banA none] := by
  refine ⟨?_, by simp [muteCmd, untilFromArgs, hd], by simp [banCmd, untilFromArgs, hd]⟩
  by_cases h : s = []
  · subst h; rfl
  · cases hr : (pyStrip s).reverse with
    | nil => simp [parseDuration, claimDurationShape, h, hr]
    | cons u rev => simp [parseDuration, claimDurationShape, h, hr]

/-- Witness for the amended C10, at the padded input " 10m " and the
malformed duration "soon". -/
theorem parse_duration_amended_witness :
    parseDuration (strL ("soon")) = none
    ∧ (parseDuration (strL (" 10m ")) = claimDurationShape (pyStrip (strL (" 10m ")))
       ∧ muteCmd [strL ("soon")] 0 = [ModAction.restrict none]
       ∧ banCmd [strL ("soon")] 0 = [ModAction.banA none]) :=
  ⟨by decide, parse_duration_amended (strL (" 10m ")) (strL ("soon")) 0 (by decide)⟩

/-- C6 counterexample: a plain message ("hello", no filter match, no link,
flood counter at 1 after the bump) mutates the flood counter but the trace
ends without a save — the only `save_data` of that path (bot.py line 694)
sits inside the flagged branch, so the non-flagged counter update is not
persisted. -/
theorem flood_update_not_persisted_cex :
    persistedOk
      (applyFiltersAntispam ensureChatDefault (strL ("hello")) (strL ("1")) 0).2.2 = false := by
  decide

/-- C6 amended: the warn-count increment (`/warn` and the filter-match
path), filter add/remove and the `/setmaxwarns` and `/slowmode` config
changes are each persisted before their decision is final; but the
flood-detector's counter update is persisted exactly when the message is
flagged — on a non-flagged qualifying message the counter mutation is
followed by no save (only preceded by the stats save at message start). -/
theorem persistence_after_mutations_amended (conf : ChatConfig) (uid raw : Str)
    (now : Int) (a1 a2 a3 a4 : List Str) :
    persistedOk (warnCmd conf uid).2.2 = true
    ∧ persistedOk (addfilterCmd conf a1).2.2 = true
    ∧ persistedOk (rmfilterCmd conf a2).2.2 = true
    ∧ persistedOk (setmaxwarnsCmd conf a3).2.2 = true
    ∧ persistedOk (slowmodeCmd conf a4).2.2 = true
    ∧ persistedOk (applyFiltersAntispam conf raw uid now).2.2 =
        ((findFilterMatch conf.filters (lowerStr raw)).isSome || !conf.antispamOn
          || hasLink (lowerStr raw) || (floodCheck (dictGet conf.flood uid) now).2) := by
  refine ⟨rfl, ?_, ?_, ?_, ?_, ?_⟩
  · cases a1 with
    | nil => rfl
    | cons a r => rfl
  · cases a2 with
    | nil => rfl
    | cons a r =>
        simp only [rmfilterCmd]
        split <;> rfl
  · cases a3 with
    | nil => rfl
    | cons a r =>
        simp only [setmaxwarnsCmd]
        split <;> rfl
  · cases a4 with
    | nil => rfl
    | cons a r =>
        simp only [slowmodeCmd]
        split <;> rfl
  · cases hm : findFilterMatch conf.filters (lowerStr raw) with
    | some e =>
        obtain ⟨w, cfg⟩ := e
        by_cases hw : cfg.warn
        · cases hv : (recordViolation conf uid).2 <;>
            simp [applyFiltersAntispam, hm, hw, hv, persistedOk] <;> decide
        · simp [applyFiltersAntispam, hm, hw, persistedOk]
          decide
    | none =>
        by_cases ha : conf.antispamOn
        · by_cases hl : hasLink (lowerStr raw)
          · simp [applyFiltersAntispam, hm, ha, hl, persistedOk]
            decide
          · by_cases hf : (floodCheck (dictGet conf.flood uid) now).2
            · simp [applyFiltersAntispam, hm, ha, hl, hf, persistedOk]
              decide
            · simp [applyFiltersAntispam, hm, ha, hl, hf, persistedOk]
        · simp [applyFiltersAntispam, hm, ha, persistedOk]
          decide

section RoundTrip

theorem decodeWindow_encodeWindow (w : FloodWindow) :
    decodeWindow (encodeWindow w) = some w := rfl

theorem decodeFilterCfg_encodeFilterCfg (f : FilterCfg) :
    decodeFilterCfg (encodeFilterCfg f) = some f := rfl

theorem decodeMapWith_encodeMapWith {α : Type} (dec : J → Option α) (enc : α → J)
    (h : ∀ a, dec (enc a) = some a) (m : List (Str × α)) :
    decodeMapWith dec (encodeMapWith enc m) = some m := by
  induction m with
  | nil => rfl
  | cons p r ih =>
      obtain ⟨k, a⟩ := p
      rw [show encodeMapWith enc ((k, a) :: r) = (k, enc a) :: encodeMapWith enc r from rfl]
      simp only [decodeMapWith, h, ih, Option.map_some']

theorem decodeConf_encodeConf (c : ChatConfig) :
    decodeConf (encodeConf c) = some c := by
  have hf := decodeMapWith_encodeMapWith decodeFilterCfg encodeFilterCfg
    decodeFilterCfg_encodeFilterCfg c.filters
  have hw := decodeMapWith_encodeMapWith jAsInt J.jnum (fun n => rfl) c.warns
  have hl := decodeMapWith_encodeMapWith decodeWindow encodeWindow
    decodeWindow_encodeWindow c.flood
  simp [encodeConf, decodeConf, hf, hw, hl]

theorem decodeStore_encodeStore (s : Store) :
    decodeStore (encodeStore s) = some s := by
  have hc := decodeMapWith_encodeMapWith decodeConf encodeConf decodeConf_encodeConf s.chats
  have hu := decodeMapWith_encodeMapWith jAsBool J.jbool (fun b => rfl) s.users
  have hg := decodeMapWith_encodeMapWith jAsBool J.jbool (fun b => rfl) s.groups
  simp [encodeStore, decodeStore, hc, hu, hg]

theorem loadData_encodeStore (s : Store) :
    loadData (LoadResult.parsed (encodeStore s)) = encodeStore s := rfl

end RoundTrip

/-- C7: persisting the store and loading it back restores every ChatConfig
field exactly, including empty filter and warn maps, with the documented
top-level field names and nesting preserved losslessly: reading the
documented layout back out of `loadData` applied to the saved document is
the identity on the store. -/
theorem store_roundtrip (s : Store) :
    decodeStore (loadData (LoadResult.parsed (encodeStore s))) = some s := by
  rw [loadData_encodeStore]
  exact decodeStore_encodeStore s

/-- C8: a missing storage file, an unreadable or unparseable one, and even a
parseable document that is not an object all make `load_data` initialize the
empty store (empty chats/users/groups); the exception branches return
normally, so startup never fails because of storage. -/
theorem load_defaults_on_missing_or_corrupt :
    loadData LoadResult.missing = emptyDoc
    ∧ loadData LoadResult.failed = emptyDoc
    ∧ loadData (LoadResult.parsed (J.jnum 0)) = emptyDoc
    ∧ decodeStore emptyDoc = some (Store.mk [] [] []) :=
  ⟨rfl, rfl, rfl, rfl⟩

section ConcurrentWarns

theorem recordViolation_warnsGet_ne (conf : ChatConfig) (uid u : Str) (h : uid ≠ u) :
    warnsGet (recordViolation conf uid).1.warns u = warnsGet conf.warns u := by
  rw [recordViolation_fst]
  unfold warnsGet
  rw [dictGet_set_ne _ _ _ _ h]

theorem runViolations_count (sched : List Str) :
    ∀ (conf : ChatConfig) (u : Str),
      warnsGet (runViolations conf sched).1.warns u =
        warnsGet conf.warns u + (sched.count u : Int) := by
  induction sched with
  | nil => intro conf u; simp [runViolations]
  | cons x r ih =>
      intro conf u
      have h1 : (runViolations conf (x :: r)).1 =
          (runViolations (recordViolation conf x).1 r).1 := rfl
      rw [h1, ih]
      by_cases hxu : x = u
      · subst hxu
        rw [recordViolation_warnsGet]
        rw [List.count_cons, if_pos (by simp)]
        push_cast
        ring
      · rw [recordViolation_warnsGet_ne conf x u hxu]
        have hc : (x :: r).count u = r.count u := by
          simp [List.count_cons, Ne.symm hxu]
        rw [hc]

theorem isBannedV_recordViolation (conf : ChatConfig) (u : Str) :
    isBannedV (recordViolation conf u).2 =
      decide (conf.maxWarns ≤ warnsGet conf.warns u + 1) := by
  simp only [recordViolation]
  split <;> rename_i h
  · simp only [isBannedV]
    exact (decide_eq_true h).symm
  · simp only [isBannedV]
    exact (decide_eq_false h).symm

theorem runViolations_banned (N : Nat) :
    ∀ (conf : ChatConfig) (u : Str),
      anyBanned (runViolations conf (List.replicate N u)).2 = true ↔
        (1 ≤ N ∧ conf.maxWarns ≤ warnsGet conf.warns u + N) := by
  induction N with
  | zero =>
      intro conf u
      simp [runViolations, anyBanned]
  | succ n ih =>
      intro conf u
      rw [List.replicate_succ]
      have h2 : (runViolations conf (u :: List.replicate n u)).2 =
          (recordViolation conf u).2 ::
            (runViolations (recordViolation conf u).1 (List.replicate n u)).2 := rfl
      have h3 : anyBanned ((recordViolation conf u).2 ::
            (runViolations (recordViolation conf u).1 (List.replicate n u)).2) =
          (isBannedV (recordViolation conf u).2 ||
            anyBanned (runViolations (recordViolation conf u).1 (List.replicate n u)).2) := by
        simp [anyBanned]
      rw [h2, h3]
      rw [Bool.or_eq_true, ih, isBannedV_recordViolation,
        recordViolation_maxWarns, recordViolation_warnsGet]
      rw [decide_eq_true_eq]
      push_cast
      constructor
      · rintro (h | ⟨hn, h⟩)
        · exact ⟨trivial, by omega⟩
        · exact ⟨trivial, by omega⟩
      · rintro ⟨-, h⟩
        by_cases hn : 1 ≤ n
        · exact Or.inr ⟨hn, by omega⟩
        · exact Or.inl (by omega)

end ConcurrentWarns

/-- C9: concurrent violation recordings for one user of one chat are
serialized — the asyncio loop interleaves whole recordings because the
read-increment-write contains no await — so any interleaving of recordings
(`runViolations`) from a cold warn count of 0 leaves the user's count at
exactly the number of their recordings, and a burst of N recordings contains
a `banned` verdict exactly when N ≥ 1 and N reaches the chat's threshold;
escalations never under-count. -/
theorem concurrent_warns_serialized (conf : ChatConfig) (sched : List Str)
    (u : Str) (N : Nat) (h0 : warnsGet conf.warns u = 0) :
    warnsGet (runViolations conf sched).1.warns u = (sched.count u : Int)
    ∧ (anyBanned (runViolations conf (List.replicate N u)).2 = true ↔
        (1 ≤ N ∧ conf.maxWarns ≤ (N : Int))) := by
  constructor
  · rw [runViolations_count sched conf u, h0, zero_add]
  · rw [runViolations_banned N conf u, h0, zero_add]

/-- Witness for C9: user "7" in a default chat (`maxWarns = 3`), two
recordings count to 2, and a burst of three recordings reaches the ban
threshold. -/
theorem concurrent_warns_serialized_witness :
    warnsGet ensureChatDefault.warns (strL ("7")) = 0
    ∧ (warnsGet (runViolations ensureChatDefault
          [strL ("7"), strL ("7")]).1.warns (strL ("7")) =
        (([strL ("7"), strL ("7")].count (strL ("7")) : Nat) : Int)
      ∧ (anyBanned (runViolations ensureChatDefault
            (List.replicate 3 (strL ("7")))).2 = true ↔
          (1 ≤ 3 ∧ ensureChatDefault.maxWarns ≤ ((3 : Nat) : Int)))) :=
  ⟨rfl, concurrent_warns_serialized ensureChatDefault
    [strL ("7"), strL ("7")] (strL ("7")) 3 rfl⟩
